import Mathlib

/-!
Verification development for `MOBILE_ACCESS_SETUP_MANAGER.py`
(Worldwidebro/mobile-access-manager).

The Python module is a repository scaffolding generator.  This file gives a
shallow embedding of its data model and operations:

* the filesystem is a `FS` record (directory flags and file contents indexed
  by paths, a path being the list of its components);
* the module's atomic-write pattern (`tempfile.NamedTemporaryFile` into the
  system temp directory, `temp_file.write`, `shutil.move` onto the target,
  `os.unlink` of the temp file inside the `except` handler) becomes
  `atomic_write`, with a Boolean oracle marking a failure raised during the
  content write;
* the directory-spec expansion loop of
  `create_recommended_subdirectory_structure` becomes `expandGo`, with an
  optional index marking the entry whose README write raises;
* the bootstrap pipeline `create_main_github_repository` /
  `execute_mobile_access_setup` becomes a function from subprocess outcomes
  and per-method internal-failure flags to an event trace, a success flag and
  the completion report;
* the template artifacts become the literal strings the Python source holds
  (note that only the README and the setup instructions are f-strings in the
  source; the other template strings are plain strings, so their
  `{CONFIG[...]}` references are kept verbatim, written here with escaped
  braces).
-/

namespace MobileAccess

set_option maxRecDepth 100000

set_option maxHeartbeats 1000000

/-- A filesystem path, as its list of components. -/
abbrev Path := List String

/-- The filesystem state: which paths are directories, and the contents of
the regular files.  Functions model the store so that overwriting is plain
function override. -/
structure FS where
  dirs : Path → Bool
  files : Path → Option String

/-- The empty filesystem. -/
def emptyFS : FS := ⟨fun _ => false, fun _ => none⟩

/-- Write `c` to the file at `p` (create or overwrite). -/
def writeFile (fs : FS) (p : Path) (c : String) : FS :=
  { fs with files := fun q => if q = p then some c else fs.files q }

/-- Remove the file at `p` (`os.unlink`). -/
def removeFile (fs : FS) (p : Path) : FS :=
  { fs with files := fun q => if q = p then none else fs.files q }

/-- `Path.touch()`: create an empty file when absent, keep the content (only
metadata changes) when present. -/
def touchFile (fs : FS) (p : Path) : FS :=
  { fs with files := fun q => if q = p then some ((fs.files p).getD "") else fs.files q }

/-- `Path.mkdir(parents=True, exist_ok=True)`: mark `p` and every non-empty
prefix of it as a directory; never an error when it already exists. -/
def mkdirParents (fs : FS) (p : Path) : FS :=
  { fs with dirs := fun q => fs.dirs q || (!q.isEmpty && q.isPrefixOf p) }

/-- `shutil.move(src, dst)` at the filesystem-content level: the destination
receives the source's content and the source is removed. -/
def moveFile (fs : FS) (src dst : Path) : FS :=
  removeFile (writeFile fs dst ((fs.files src).getD "")) src

/-- The module's atomic-write pattern, used for every generated file:

    temp_file = tempfile.NamedTemporaryFile(mode='w', encoding='utf-8', delete=False, suffix='.tmp')
    try:
        temp_file.write(content)
        temp_file.close()
        shutil.move(temp_file.name, target_path)
    except Exception:
        if os.path.exists(temp_file.name):
            os.unlink(temp_file.name)
        raise

`tmp` is the temp file's path (in the system temp directory), `target` the
destination.  `fail = true` means an exception is raised during the content
write (encoding error, disk exhaustion, I/O interruption): the handler
unlinks the temp file and re-raises, so the returned flag is `false` and the
exception propagates to the enclosing method.  `fail = false` is the success
path: the fully-written temp file is moved onto the target. -/
def atomic_write (fs : FS) (tmp target : Path) (content : String) (fail : Bool) : FS × Bool :=
  let fs1 := writeFile fs tmp ""
  if fail then
    (removeFile fs1 tmp, false)
  else
    (moveFile (writeFile fs1 tmp content) tmp target, true)

/-! ## Filesystem operations as a list of primitive steps

To reason about whole runs (idempotence of the expansion, which paths a
partial run touches) the same primitive steps are also represented as data. -/

/-- One primitive filesystem step. -/
inductive FsOp where
  | mkdirOp (p : Path)
  | writeOp (p : Path) (c : String)
  | touchOp (p : Path)
  | removeOp (p : Path)
deriving DecidableEq

/-- Interpret one step on a filesystem. -/
def applyOp (fs : FS) : FsOp → FS
  | .mkdirOp p => mkdirParents fs p
  | .writeOp p c => writeFile fs p c
  | .touchOp p => touchFile fs p
  | .removeOp p => removeFile fs p

/-- Interpret a list of steps left to right. -/
def applyOps (fs : FS) : List FsOp → FS
  | [] => fs
  | op :: ops => applyOps (applyOp fs op) ops

/-- What one step does to the content stored at path `p`. -/
def opFileAction (op : FsOp) (p : Path) (x : Option String) : Option String :=
  match op with
  | .mkdirOp _ => x
  | .writeOp q c => if p = q then some c else x
  | .touchOp q => if p = q then some (x.getD "") else x
  | .removeOp q => if p = q then none else x

/-- What a list of steps does to the content stored at path `p`. -/
def opsFileAction : List FsOp → Path → Option String → Option String
  | [], _, x => x
  | op :: ops, p, x => opsFileAction ops p (opFileAction op p x)

/-- Whether one step turns path `p` into a directory. -/
def opDirAction (op : FsOp) (p : Path) : Bool :=
  match op with
  | .mkdirOp q => !p.isEmpty && p.isPrefixOf q
  | _ => false

/-- Whether some step of the list turns path `p` into a directory. -/
def opsDirFlag : List FsOp → Path → Bool
  | [], _ => false
  | op :: ops, p => opDirAction op p || opsDirFlag ops p

/-- The file paths a list of steps writes, touches or removes. -/
def touchedFilePaths : List FsOp → List Path
  | [] => []
  | .mkdirOp _ :: ops => touchedFilePaths ops
  | .writeOp p _ :: ops => p :: touchedFilePaths ops
  | .touchOp p :: ops => p :: touchedFilePaths ops
  | .removeOp p :: ops => p :: touchedFilePaths ops

/-- The directory paths a list of steps creates. -/
def mkdirTargets : List FsOp → List Path
  | [] => []
  | .mkdirOp p :: ops => p :: mkdirTargets ops
  | _ :: ops => mkdirTargets ops

/-- The net steps of one successful `atomic_write`: the temp file is created
empty, fully written, its content lands at the target, the temp file is gone
(`shutil.move` written as its effect, the temp file holding `c` at that
point). -/
def atomicWriteOps (tmp target : Path) (c : String) : List FsOp :=
  [FsOp.writeOp tmp "", FsOp.writeOp tmp c, FsOp.writeOp target c, FsOp.removeOp tmp]

/-! ## Configuration constants (the module-level `CONFIG` dict) -/

/-- `CONFIG["PORTS"]`. -/
structure PortsTable where
  MOBILE_DASHBOARD : Nat
  API_ENDPOINTS : Nat
  MONITORING : Nat
  RESEARCH : Nat
  GITHUB : Nat
  START_PORT : Nat
  END_PORT : Nat
  TOTAL_PORTS : Nat
deriving DecidableEq

/-- `CONFIG["URLS"]`. -/
structure UrlsTable where
  BASE_LOCALHOST : String
  MOBILE_DASHBOARD : String
  API_ENDPOINTS : String
  MONITORING : String
  RESEARCH : String
  GITHUB : String
deriving DecidableEq

/-- `CONFIG["GITHUB"]`. -/
structure GithubTable where
  USERNAME : String
  MAIN_REPO_NAME : String
deriving DecidableEq

/-- The whole `CONFIG` table. -/
structure ConfigTable where
  PORTS : PortsTable
  URLS : UrlsTable
  GITHUB : GithubTable
deriving DecidableEq

/-- The module's `CONFIG` constant. -/
def CONFIG : ConfigTable :=
  { PORTS :=
      { MOBILE_DASHBOARD := 8000
        API_ENDPOINTS := 8001
        MONITORING := 8002
        RESEARCH := 8003
        GITHUB := 8004
        START_PORT := 8000
        END_PORT := 8601
        TOTAL_PORTS := 602 }
    URLS :=
      { BASE_LOCALHOST := "http://localhost"
        MOBILE_DASHBOARD := "http://localhost:8000"
        API_ENDPOINTS := "http://localhost:8001/api/"
        MONITORING := "http://localhost:8002/monitor/"
        RESEARCH := "http://localhost:8003/research/"
        GITHUB := "http://localhost:8004/github/" }
    GITHUB :=
      { USERNAME := "worldwidebro"
        MAIN_REPO_NAME := "iza-os-ecosystem" } }

/-! ## Directory-spec expansion (`create_recommended_subdirectory_structure`) -/

/-- Python's `str.title()` on ASCII text: an alphabetic character is
uppercased when the previous character is not alphabetic, lowercased
otherwise. -/
def pyTitleAux : Bool → List Char → List Char
  | _, [] => []
  | prevAlpha, c :: cs =>
    (if c.isAlpha then (if prevAlpha then c.toLower else c.toUpper) else c)
      :: pyTitleAux c.isAlpha cs

/-- Python's `str.title()`. -/
def pyTitle (s : String) : String := ⟨pyTitleAux false s.data⟩

/-- The `subdirectories` dict of `create_recommended_subdirectory_structure`,
in its declared order. -/
def subdirectories : List (String × String) :=
  [ ("core/", "Core autonomous venture studio components"),
    ("businesses/", "Business entity implementations and configurations"),
    ("integrations/", "External system integrations and APIs"),
    ("dashboards/", "Monitoring and control dashboards"),
    ("research/", "Research processing components and data"),
    ("mobile/", "Mobile-specific optimizations and configurations"),
    ("api/", "REST API endpoints and services"),
    ("docs/", "Documentation and setup guides"),
    ("scripts/", "Automation and deployment scripts"),
    ("config/", "Configuration files and settings"),
    ("data/", "Data storage and processing"),
    ("logs/", "System logs and monitoring data") ]

/-- `repo_path / dir_name`. -/
def dirPath (repo : Path) (d : String) : Path := repo ++ [d]

/-- `dir_path / "README.md"`. -/
def readmePath (repo : Path) (d : String) : Path := repo ++ [d, "README.md"]

/-- `dir_path / ".gitkeep"`. -/
def gitkeepPath (repo : Path) (d : String) : Path := repo ++ [d, ".gitkeep"]

/-- The path of the temp file `tempfile.NamedTemporaryFile` creates for the
`i`-th write of a run: a fresh, uniquely named file in the system temp
directory `sysTmp` (the fresh random name is modelled by the index). -/
def tmpPath (sysTmp : Path) (i : Nat) : Path := sysTmp ++ [toString i ++ ".tmp"]

/-- The `readme_content` f-string of the expansion loop, as a function of the
entry's name and description. -/
def readme_content (dir_name description : String) : String :=
  "# " ++ pyTitle dir_name ++ "\n\n" ++ description ++
  "\n\n## Mobile Access\n\nThis directory is optimized for mobile access and remote management.\n\n## Quick Start\n\n```bash\n# Navigate to this directory\ncd " ++
  dir_name ++
  "\n\n# View available files\nls -la\n```\n\n## Mobile Optimization\n\n- Compressed file formats\n- Optimized for mobile viewing\n- Remote access enabled\n- Mobile-friendly documentation\n"

/-- The body of the `for dir_name, description in subdirectories.items()`
loop.  Per entry: `mkdir(parents=True, exist_ok=True)`, atomic write of the
README, `touch` of `.gitkeep`.  `failAt = some i` makes the `i`-th entry's
README content write raise: the handler removes the temp file and re-raises,
which aborts the loop (the remaining entries are not processed); the
exception is then caught by the method-level `except`, which only logs. -/
def expandGo (sysTmp repo : Path) (failAt : Option Nat) : Nat → List (String × String) → FS → FS
  | _, [], fs => fs
  | i, (d, desc) :: rest, fs =>
    let fs1 := mkdirParents fs (dirPath repo d)
    let res := atomic_write fs1 (tmpPath sysTmp i) (readmePath repo d)
      (readme_content d desc) (failAt == some i)
    if res.2 then
      expandGo sysTmp repo failAt (i + 1) rest (touchFile res.1 (gitkeepPath repo d))
    else
      res.1

/-- `create_recommended_subdirectory_structure(repo_path)`.  The whole body
sits in a `try`/`except Exception` that logs and returns, so the function
itself never raises: the result is the filesystem as the (possibly aborted)
loop left it. -/
def create_recommended_subdirectory_structure (fs : FS) (sysTmp repo : Path)
    (failAt : Option Nat) : FS :=
  expandGo sysTmp repo failAt 0 subdirectories fs

/-- The primitive steps of one fully processed expansion entry. -/
def entryOps (sysTmp repo : Path) (i : Nat) (d desc : String) : List FsOp :=
  FsOp.mkdirOp (dirPath repo d) ::
    (atomicWriteOps (tmpPath sysTmp i) (readmePath repo d) (readme_content d desc) ++
      [FsOp.touchOp (gitkeepPath repo d)])

/-- The primitive steps of a failure-free expansion run. -/
def entriesOps (sysTmp repo : Path) : Nat → List (String × String) → List FsOp
  | _, [] => []
  | i, (d, desc) :: rest => entryOps sysTmp repo i d desc ++ entriesOps sysTmp repo (i + 1) rest

/-- The primitive steps of an expansion run whose entry number `failIdx`
fails during the README content write: entries before it are fully
processed; the failing entry gets its directory, a temp file that is created
and unlinked again, and nothing else; the loop stops there. -/
def opsUpToFail (sysTmp repo : Path) : Nat → Nat → List (String × String) → List FsOp
  | _, _, [] => []
  | i, failIdx, (d, desc) :: rest =>
    if i = failIdx then
      [FsOp.mkdirOp (dirPath repo d), FsOp.writeOp (tmpPath sysTmp i) "",
        FsOp.removeOp (tmpPath sysTmp i)]
    else
      entryOps sysTmp repo i d desc ++ opsUpToFail sysTmp repo (i + 1) failIdx rest

/-! ## Template artifacts

Only `create_mobile_readme`'s README and the setup instructions are built
from Python f-strings (their `{...}` references are substituted when the
string is built).  `requirements_content`, `mobile_docs_content`,
`setup_script_content`, `mobile_server_content` and `dashboard_template` are
plain (non-f) strings: their `{CONFIG[...]}` references stay in the text
verbatim.  Braces are written `\x7b`/`\x7d` below. -/

/-- `requirements_content` of `create_mobile_requirements` (a plain string;
it holds no variable references). -/
def requirements_content : String :=
  "# Mobile-Optimized Requirements\n# Autonomous Venture Studio - Mobile Access\n\n# Core Framework\nflask==2.3.3\ngunicorn==21.2.0\n\n# Database & Caching\nredis==4.6.0\nsqlalchemy==2.0.21\n\n# Task Queue\ncelery==5.3.1\n\n# HTTP & API\nrequests==2.31.0\nflask-cors==4.0.0\nflask-restful==0.3.10\n\n# Configuration\npython-dotenv==1.0.0\npyyaml==6.0.1\n\n# Monitoring & Logging\npsutil==5.9.6\nloguru==0.7.2\n\n# Mobile Optimization\nflask-compress==1.13\nflask-caching==2.1.0\n\n# Data Processing\npandas==2.1.1\nnumpy==1.24.3\n\n# Security\ncryptography==41.0.4\nflask-jwt-extended==4.5.2\n\n# Development\npytest==7.4.2\nblack==23.7.0\nflake8==6.0.0\n\n# Mobile-Specific\nflask-mobile==0.1.0\nuser-agents==2.2.0\n"

/-- `mobile_docs_content` of `create_mobile_requirements`.  A plain (non-f)
string in the source: the five `\x7bCONFIG["URLS"][...]\x7d` references are
part of the text and are emitted into `docs/mobile_setup.md` verbatim. -/
def mobile_docs_content : String :=
  "# Mobile Setup Documentation\n\n## Mobile Access Setup\n\nThis document provides instructions for setting up mobile access to the Autonomous Venture Studio ecosystem.\n\n### Prerequisites\n\n1. **Python 3.9+** installed\n2. **Git** installed\n3. **Mobile device** with internet access\n4. **GitHub account** access\n\n### Installation Steps\n\n1. **Clone Repository**\n   ```bash\n   git clone https://github.com/worldwidebro/iza-os-ecosystem.git\n   cd iza-os-ecosystem\n   ```\n\n2. **Install Dependencies**\n   ```bash\n   pip install -r requirements.txt\n   ```\n\n3. **Run Mobile Setup**\n   ```bash\n   chmod +x mobile_setup.sh\n   ./mobile_setup.sh\n   ```\n\n4. **Start Mobile Server**\n   ```bash\n   python mobile_server.py\n   ```\n\n### Mobile Access Points\n\n- **Main Dashboard**: \x7bCONFIG[\"URLS\"][\"MOBILE_DASHBOARD\"]\x7d\n- **API Endpoints**: \x7bCONFIG[\"URLS\"][\"API_ENDPOINTS\"]\x7d\n- **Monitoring**: \x7bCONFIG[\"URLS\"][\"MONITORING\"]\x7d\n- **Research**: \x7bCONFIG[\"URLS\"][\"RESEARCH\"]\x7d\n- **GitHub**: \x7bCONFIG[\"URLS\"][\"GITHUB\"]\x7d\n\n### Mobile Features\n\n- Responsive design for all screen sizes\n- Touch-friendly interface\n- Offline functionality\n- Push notifications\n- Mobile-optimized API\n\n### Troubleshooting\n\nSee `docs/troubleshooting.md` for common issues and solutions.\n\n### Support\n\nFor mobile access support, contact the development team.\n"

/-- `setup_script_content` of `create_mobile_setup_script`.  A plain (non-f)
string in the source: its `\x7bCONFIG["URLS"][...]\x7d` references are part
of the text written to `mobile_setup.sh`. -/
def setup_script_content : String :=
  "#!/bin/bash\n# Mobile Setup Script for Autonomous Venture Studio\n# IZA OS Ecosystem - Mobile Access\n\necho \"🚀 Setting up mobile access for Autonomous Venture Studio...\"\necho \"\x3d\x3d\x3d\x3d\x3d\x3d\x3d\x3d\x3d\x3d\x3d\x3d\x3d\x3d\x3d\x3d\x3d\x3d\x3d\x3d\x3d\x3d\x3d\x3d\x3d\x3d\x3d\x3d\x3d\x3d\x3d\x3d\x3d\x3d\x3d\x3d\x3d\x3d\x3d\x3d\x3d\x3d\x3d\x3d\x3d\x3d\x3d\x3d\x3d\x3d\x3d\x3d\x3d\x3d\x3d\x3d\x3d\x3d\x3d\x3d\"\n\n# Check Python version\npython_version=$(python3 --version 2>&1)\necho \"Python version: $python_version\"\n\n# Install dependencies\necho \"📦 Installing dependencies...\"\npip install -r requirements.txt\n\n# Set up environment\necho \"🔧 Setting up environment...\"\nexport FLASK_ENV=production\nexport MOBILE_OPTIMIZATION=true\nexport ECOSYSTEM_MODE=mobile\n\n# Create necessary directories\necho \"📁 Creating directories...\"\nmkdir -p logs\nmkdir -p data\nmkdir -p config\nmkdir -p mobile/cache\n\n# Set permissions\necho \"🔐 Setting permissions...\"\nchmod +x scripts/*.py\nchmod +x mobile/*.py\n\n# Initialize mobile configuration\necho \"⚙️ Initializing mobile configuration...\"\npython scripts/init_mobile_config.py\n\n# Start mobile-optimized server\necho \"🌐 Starting mobile-optimized server...\"\necho \"Mobile Dashboard: \x7bCONFIG[\"URLS\"][\"MOBILE_DASHBOARD\"]\x7d\"\necho \"API Endpoints: \x7bCONFIG[\"URLS\"][\"API_ENDPOINTS\"]\x7d\"\necho \"Monitoring: \x7bCONFIG[\"URLS\"][\"MONITORING\"]\x7d\"\necho \"Research: \x7bCONFIG[\"URLS\"][\"RESEARCH\"]\x7d\"\necho \"GitHub: \x7bCONFIG[\"URLS\"][\"GITHUB\"]\x7d\"\necho \"\"\necho \"✅ Mobile access setup complete!\"\necho \"📱 Open http://localhost:8000 in your mobile browser\"\necho \"\"\necho \"Press Ctrl+C to stop the server\"\n\n# Start the mobile server\npython mobile_server.py\n"

/-- The `readme_content` f-string of `create_mobile_readme`, with its
references (`self.github_username`, `self.main_repo_name`,
`CONFIG["URLS"][...]`) substituted as Python does when the string is
built. -/
def mobile_readme_content : String :=
  "# IZA OS Ecosystem - Mobile Access\n\n**Autonomous Venture Studio - $724M+ Ecosystem**\n\n## 🚀 Quick Start (Mobile)\n\n### Prerequisites\n- Python 3.9+\n- Git\n- Mobile device with internet access\n\n### Installation\n\n```bash\n# Clone the repository\ngit clone https://github.com/worldwidebro/iza-os-ecosystem.git\ncd iza-os-ecosystem\n\n# Install dependencies\npip install -r requirements.txt\n\n# Run mobile setup\nchmod +x mobile_setup.sh\n./mobile_setup.sh\n```\n\n### Mobile Access\n\nThe ecosystem is optimized for mobile access with the following features:\n\n- **Mobile Dashboard**: http://localhost:8000 (Mobile Optimized)\n- **API Endpoints**: http://localhost:8001/api/\n- **Monitoring**: http://localhost:8002/monitor/\n- **Research**: http://localhost:8003/research/\n- **GitHub Integration**: http://localhost:8004/github/\n\n### Ecosystem Overview\n\n- **Total Entities**: 730+\n- **Business Value**: $724M+\n- **Automation Level**: 95%\n- **Revenue Potential**: $300M ARR\n- **Mobile Optimized**: ✅\n\n### Key Components\n\n#### Core Systems\n- **IZA OS Components**: 7 core components ($16.8M value)\n- **Business Entities**: 382 businesses ($221.3M value)\n- **Frontend Entities**: 26 mobile-optimized projects\n- **Repository Entities**: 204 repositories ($15.4M value)\n\n#### Integrations\n- **MCP Servers**: Apple Notes, Obsidian, Jupyter\n- **Research Processing**: 25 papers ($28M enhancement)\n- **GitHub Integration**: 530 repositories across 5 accounts\n- **Docker Containers**: 730 containers with port allocations\n\n#### Mobile Features\n- **Responsive Design**: All dashboards mobile-optimized\n- **Touch-Friendly**: Mobile-first interface design\n- **Offline Support**: Core functionality available offline\n- **Push Notifications**: Real-time alerts and updates\n- **Mobile API**: RESTful API optimized for mobile clients\n\n### Quick Commands\n\n```bash\n# Start mobile-optimized server\npython mobile_server.py\n\n# Check system status\npython check_status.py\n\n# View mobile dashboard\nopen http://localhost:8000\n\n# Access mobile API\ncurl http://localhost:8001/api/status\n```\n\n### Mobile Dashboard Access\n\nThe mobile dashboard provides:\n\n- **Real-time Monitoring**: System health and performance\n- **Entity Management**: Manage all 730+ entities\n- **Revenue Tracking**: Monitor $300M ARR potential\n- **Research Insights**: Access processed research data\n- **GitHub Integration**: Repository management\n- **MCP Services**: Apple Notes, Obsidian, Jupyter access\n\n### Support\n\nFor mobile access support:\n- **Documentation**: See `docs/` directory\n- **Mobile Guide**: See `mobile/` directory\n- **API Reference**: See `api/` directory\n\n### License\n\nAutonomous Venture Studio - All Rights Reserved\n\n---\n\n**Mobile Access Enabled** ✅  \n**Ecosystem Value**: $724M+  \n**Automation Level**: 95%  \n**Mobile Optimized**: Yes\n"

/-- `create_mobile_requirements(repo_path)`: atomic write of
`requirements.txt`, `mkdir` of `docs/`, atomic write of
`docs/mobile_setup.md`.  `tmp1`/`tmp2` are the two temp-file paths,
`fail1`/`fail2` the two writes' failure oracles.  A raised write failure
propagates to the method-level `except Exception`, which logs and returns:
the method never re-raises, and the filesystem keeps the effects made so
far. -/
def create_mobile_requirements_fs (fs : FS) (repo tmp1 tmp2 : Path)
    (fail1 fail2 : Bool) : FS :=
  let res1 := atomic_write fs tmp1 (repo ++ ["requirements.txt"]) requirements_content fail1
  if res1.2 then
    let fs2 := mkdirParents res1.1 (repo ++ ["docs"])
    (atomic_write fs2 tmp2 (repo ++ ["docs", "mobile_setup.md"]) mobile_docs_content fail2).1
  else
    res1.1

/-- Character-list prefix test (structural, so concrete instances evaluate
in the kernel). -/
def charsPrefix : List Char → List Char → Bool
  | [], _ => true
  | _ :: _, [] => false
  | a :: pa, b :: pb => a == b && charsPrefix pa pb

/-- Character-list substring test. -/
def charsInfix (pat : List Char) : List Char → Bool
  | [] => pat.isEmpty
  | c :: rest => charsPrefix pat (c :: rest) || charsInfix pat rest

/-- Whether a rendered artifact still holds an unresolved `\x7bCONFIG[...]\x7d`
variable reference as literal placeholder text. -/
def hasUnresolvedRef (s : String) : Bool :=
  charsInfix "\x7bCONFIG[".data s.data

/-! ## The dashboard configuration (`create_mobile_dashboard_config`) -/

/-- The `mobile_dashboard` section of the config dict. -/
structure MobileDashboardSection where
  enabled : Bool
  port : Nat
  mobile_optimized : Bool
  responsive_design : Bool
  touch_friendly : Bool
deriving DecidableEq

/-- The `api_endpoints.main_api` section. -/
structure MainApiSection where
  port : Nat
  mobile_optimized : Bool
  compression : Bool
  caching : Bool
deriving DecidableEq

/-- The `api_endpoints.monitoring` section. -/
structure MonitoringSection where
  port : Nat
  mobile_dashboard : Bool
  real_time_updates : Bool
deriving DecidableEq

/-- The `api_endpoints.research` section. -/
structure ResearchSection where
  port : Nat
  mobile_access : Bool
  offline_support : Bool
deriving DecidableEq

/-- The `api_endpoints.github` section. -/
structure GithubSection where
  port : Nat
  mobile_interface : Bool
  repository_access : Bool
deriving DecidableEq

/-- The `api_endpoints` section. -/
structure ApiEndpointsSection where
  main_api : MainApiSection
  monitoring : MonitoringSection
  research : ResearchSection
  github : GithubSection
deriving DecidableEq

/-- The `mobile_features` section of the config dict. -/
structure MobileFeaturesSection where
  offline_support : Bool
  push_notifications : Bool
  mobile_api : Bool
  responsive_images : Bool
  touch_gestures : Bool
deriving DecidableEq

/-- The `port_range` section of the config dict. -/
structure PortRangeSection where
  start : Nat
  «end» : Nat
  total_ports : Nat
  mobile_allocated : Bool
deriving DecidableEq

/-- The `dashboard_config` dict built by `create_mobile_dashboard_config`.
`created_at` is `datetime.now().isoformat()`, an ambient clock reading, not a
value of the configuration context: it is a parameter here. -/
structure DashboardConfig where
  mobile_dashboard : MobileDashboardSection
  api_endpoints : ApiEndpointsSection
  mobile_features : MobileFeaturesSection
  port_range : PortRangeSection
  created_at : String
deriving DecidableEq

/-- `dashboard_config` as `create_mobile_dashboard_config` builds it, with
`now` the `datetime.now().isoformat()` reading of the run. -/
def dashboard_config (now : String) : DashboardConfig :=
  { mobile_dashboard :=
      { enabled := true
        port := CONFIG.PORTS.MOBILE_DASHBOARD
        mobile_optimized := true
        responsive_design := true
        touch_friendly := true }
    api_endpoints :=
      { main_api :=
          { port := CONFIG.PORTS.API_ENDPOINTS
            mobile_optimized := true
            compression := true
            caching := true }
        monitoring :=
          { port := CONFIG.PORTS.MONITORING
            mobile_dashboard := true
            real_time_updates := true }
        research :=
          { port := CONFIG.PORTS.RESEARCH
            mobile_access := true
            offline_support := true }
        github :=
          { port := CONFIG.PORTS.GITHUB
            mobile_interface := true
            repository_access := true } }
    mobile_features :=
      { offline_support := true
        push_notifications := true
        mobile_api := true
        responsive_images := true
        touch_gestures := true }
    port_range :=
      { start := CONFIG.PORTS.START_PORT
        «end» := CONFIG.PORTS.END_PORT
        total_ports := CONFIG.PORTS.TOTAL_PORTS
        mobile_allocated := true }
    created_at := now }

/-- Everything `json.dump(dashboard_config, temp_file, indent=2)` writes
before the value of `created_at` (the dict's last key in insertion order). -/
def dashboardConfigJsonBody : String :=
  "\x7b\n  \"mobile_dashboard\": \x7b\n    \"enabled\": true,\n    \"port\": " ++
  toString CONFIG.PORTS.MOBILE_DASHBOARD ++
  ",\n    \"mobile_optimized\": true,\n    \"responsive_design\": true,\n    \"touch_friendly\": true\n  \x7d,\n  \"api_endpoints\": \x7b\n    \"main_api\": \x7b\n      \"port\": " ++
  toString CONFIG.PORTS.API_ENDPOINTS ++
  ",\n      \"mobile_optimized\": true,\n      \"compression\": true,\n      \"caching\": true\n    \x7d,\n    \"monitoring\": \x7b\n      \"port\": " ++
  toString CONFIG.PORTS.MONITORING ++
  ",\n      \"mobile_dashboard\": true,\n      \"real_time_updates\": true\n    \x7d,\n    \"research\": \x7b\n      \"port\": " ++
  toString CONFIG.PORTS.RESEARCH ++
  ",\n      \"mobile_access\": true,\n      \"offline_support\": true\n    \x7d,\n    \"github\": \x7b\n      \"port\": " ++
  toString CONFIG.PORTS.GITHUB ++
  ",\n      \"mobile_interface\": true,\n      \"repository_access\": true\n    \x7d\n  \x7d,\n  \"mobile_features\": \x7b\n    \"offline_support\": true,\n    \"push_notifications\": true,\n    \"mobile_api\": true,\n    \"responsive_images\": true,\n    \"touch_gestures\": true\n  \x7d,\n  \"port_range\": \x7b\n    \"start\": " ++
  toString CONFIG.PORTS.START_PORT ++
  ",\n    \"end\": " ++
  toString CONFIG.PORTS.END_PORT ++
  ",\n    \"total_ports\": " ++
  toString CONFIG.PORTS.TOTAL_PORTS ++
  ",\n    \"mobile_allocated\": true\n  \x7d,\n  \"created_at\": \""

/-- The bytes `json.dump` writes for the dashboard configuration artifact
`config/mobile_dashboard_config.json`: the serialized dict, with the run's
`datetime.now().isoformat()` reading as the value of `created_at`. -/
def dashboard_config_json (now : String) : String :=
  dashboardConfigJsonBody ++ (now ++ "\"\n\x7d")

/-- The generated file artifacts whose rendered bytes this development
embeds. -/
inductive RenderedArtifact where
  | rootReadme
  | requirementsTxt
  | mobileSetupDocs
  | setupScript
  | dashboardConfigJson
deriving DecidableEq

/-- The bytes each artifact's rendering produces in a run whose
`datetime.now().isoformat()` reading is `now` (the configuration context is
the fixed `CONFIG` table). -/
def renderArtifact (now : String) : RenderedArtifact → String
  | .rootReadme => mobile_readme_content
  | .requirementsTxt => requirements_content
  | .mobileSetupDocs => mobile_docs_content
  | .setupScript => setup_script_content
  | .dashboardConfigJson => dashboard_config_json now

/-! ## The bootstrap pipeline (`create_main_github_repository`,
`execute_mobile_access_setup`) -/

/-- The observable steps of `create_main_github_repository`, in source
order. -/
inductive Event where
  | mkdirMobileDir
  | mkdirRepo
  | gitInit
  | subdirStructure
  | mobileReadme
  | mobileRequirements
  | mobileSetupScript
  | mobileDashboardConfig
  | gitAdd
  | gitCommit
  | gitRemoteAdd
deriving DecidableEq

/-- Exit status of the four `subprocess.run(..., check=True)` invocations:
`true` = exit 0, `false` = nonzero exit, which makes `subprocess.run` raise
`CalledProcessError`. -/
structure GitOutcomes where
  initOk : Bool
  addOk : Bool
  commitOk : Bool
  remoteOk : Bool
deriving DecidableEq

/-- Internal-failure oracles for the five per-artifact generation methods
(a `true` flag means an exception is raised inside that method's body). -/
structure ArtifactFailures where
  subdirFail : Bool
  readmeFail : Bool
  requirementsFail : Bool
  setupScriptFail : Bool
  dashboardFail : Bool
deriving DecidableEq

/-- A Python exception value (only its presence matters here). -/
inductive PyExn where
  | exn
deriving DecidableEq

/-- The `try: ... except Exception: log` wrapper every per-artifact method
puts around its whole body: an `Except` body collapses to a normal return
either way, so the method never propagates an exception to its caller. -/
def pyCatchAll (body : Except PyExn Unit) : Unit :=
  match body with
  | Except.ok u => u
  | Except.error _ => ()

/-- A per-artifact method body: it raises exactly when its oracle says so. -/
def artifactBody (fail : Bool) : Except PyExn Unit :=
  if fail then Except.error PyExn.exn else Except.ok ()

/-- `create_recommended_subdirectory_structure` seen by the caller: the
method-level `except Exception` swallows any internal failure, the call
always completes and contributes its step. -/
def subdirStructureStep (fail : Bool) : List Event :=
  let _ := pyCatchAll (artifactBody fail)
  [Event.subdirStructure]

/-- `create_mobile_readme` seen by the caller (same catch-all shape). -/
def mobileReadmeStep (fail : Bool) : List Event :=
  let _ := pyCatchAll (artifactBody fail)
  [Event.mobileReadme]

/-- `create_mobile_requirements` seen by the caller (same catch-all shape). -/
def mobileRequirementsStep (fail : Bool) : List Event :=
  let _ := pyCatchAll (artifactBody fail)
  [Event.mobileRequirements]

/-- `create_mobile_setup_script` seen by the caller (same catch-all shape). -/
def mobileSetupScriptStep (fail : Bool) : List Event :=
  let _ := pyCatchAll (artifactBody fail)
  [Event.mobileSetupScript]

/-- `create_mobile_dashboard_config` seen by the caller (same catch-all
shape). -/
def mobileDashboardConfigStep (fail : Bool) : List Event :=
  let _ := pyCatchAll (artifactBody fail)
  [Event.mobileDashboardConfig]

/-- `create_main_github_repository()`: the steps attempted (in source order)
and the return value.  The body runs inside `try: ... except Exception:
log; return False`: a `CalledProcessError` from a git call jumps to that
handler, so later steps are not attempted and the method returns `False`;
the per-artifact calls swallow their own failures and never take the
pipeline to the handler.  The method itself never raises. -/
def create_main_github_repository (g : GitOutcomes) (a : ArtifactFailures) :
    List Event × Bool :=
  let ev := [Event.mkdirMobileDir, Event.mkdirRepo, Event.gitInit]
  if !g.initOk then (ev, false) else
  let ev := ev ++ subdirStructureStep a.subdirFail
  let ev := ev ++ mobileReadmeStep a.readmeFail
  let ev := ev ++ mobileRequirementsStep a.requirementsFail
  let ev := ev ++ mobileSetupScriptStep a.setupScriptFail
  let ev := ev ++ mobileDashboardConfigStep a.dashboardFail
  let ev := ev ++ [Event.gitAdd]
  if !g.addOk then (ev, false) else
  let ev := ev ++ [Event.gitCommit]
  if !g.commitOk then (ev, false) else
  let ev := ev ++ [Event.gitRemoteAdd]
  if !g.remoteOk then (ev, false) else
  (ev, true)

/-- The event trace of a fully successful bootstrap run. -/
def fullBootstrapTrace : List Event :=
  (create_main_github_repository ⟨true, true, true, true⟩
    ⟨false, false, false, false, false⟩).1

/-- Version-control steps. -/
def vcsEvent : Event → Bool
  | .gitInit => true
  | .gitAdd => true
  | .gitCommit => true
  | .gitRemoteAdd => true
  | _ => false

/-- Artifact-writing steps (directory structure and the generated files). -/
def artifactWriteEvent : Event → Bool
  | .subdirStructure => true
  | .mobileReadme => true
  | .mobileRequirements => true
  | .mobileSetupScript => true
  | .mobileDashboardConfig => true
  | _ => false

/-- The staging / commit / remote-configuration steps. -/
def stagingEvent : Event → Bool
  | .gitAdd => true
  | .gitCommit => true
  | .gitRemoteAdd => true
  | _ => false

/-! ## The completion report (`generate_mobile_completion_report`) -/

/-- The report's `mobile_features` dict. -/
structure ReportMobileFeatures where
  responsive_design : Bool
  touch_friendly : Bool
  offline_support : Bool
  push_notifications : Bool
  mobile_api : Bool
  compression : Bool
  caching : Bool
deriving DecidableEq

/-- The report's `access_points` dict. -/
structure ReportAccessPoints where
  main_dashboard : String
  api_endpoints : String
  monitoring : String
  research : String
  github : String
deriving DecidableEq

/-- The report's `port_allocation` dict. -/
structure ReportPortAllocation where
  start_port : Nat
  end_port : Nat
  total_ports : Nat
  mobile_allocated : Bool
deriving DecidableEq

/-- The report's `repository_info` dict. -/
structure ReportRepositoryInfo where
  name : String
  github_url : String
  local_path : String
  mobile_ready : Bool
deriving DecidableEq

/-- The dict `generate_mobile_completion_report` returns. -/
structure CompletionReport where
  timestamp : String
  mobile_access_enabled : Bool
  main_repository_created : Bool
  subdirectory_structure : Bool
  mobile_optimization : Bool
  dashboard_access : Bool
  api_endpoints : Bool
  mobile_features : ReportMobileFeatures
  access_points : ReportAccessPoints
  port_allocation : ReportPortAllocation
  repository_info : ReportRepositoryInfo
  next_steps : List String
deriving DecidableEq

/-- `generate_mobile_completion_report()`.  The dict is a literal: every
Boolean flag is the constant `True`; nothing of the run's outcome flows into
it.  `now` is the `datetime.now().isoformat()` reading, `basePath` the
string of `self.base_path`. -/
def generate_mobile_completion_report (basePath now : String) : CompletionReport :=
  { timestamp := now
    mobile_access_enabled := true
    main_repository_created := true
    subdirectory_structure := true
    mobile_optimization := true
    dashboard_access := true
    api_endpoints := true
    mobile_features :=
      { responsive_design := true
        touch_friendly := true
        offline_support := true
        push_notifications := true
        mobile_api := true
        compression := true
        caching := true }
    access_points :=
      { main_dashboard := CONFIG.URLS.MOBILE_DASHBOARD
        api_endpoints := CONFIG.URLS.API_ENDPOINTS
        monitoring := CONFIG.URLS.MONITORING
        research := CONFIG.URLS.RESEARCH
        github := CONFIG.URLS.GITHUB }
    port_allocation :=
      { start_port := CONFIG.PORTS.START_PORT
        end_port := CONFIG.PORTS.END_PORT
        total_ports := CONFIG.PORTS.TOTAL_PORTS
        mobile_allocated := true }
    repository_info :=
      { name := CONFIG.GITHUB.MAIN_REPO_NAME
        github_url := "https://github.com/" ++ CONFIG.GITHUB.USERNAME ++ "/" ++
          CONFIG.GITHUB.MAIN_REPO_NAME
        local_path := basePath ++ "/mobile_repositories/" ++ CONFIG.GITHUB.MAIN_REPO_NAME
        mobile_ready := true }
    next_steps :=
      [ "Execute Complete Integration Resolution",
        "Final System Verification",
        "Mobile Access Testing" ] }

/-- `execute_mobile_access_setup()`: calls `create_main_github_repository`
(its Boolean return value is not inspected), then
`generate_mobile_setup_instructions` (which also swallows its own failures),
then returns `generate_mobile_completion_report()`.  Since each callee
catches its exceptions internally, the `except` branch that would return an
error dict is not reached on these failure modes and the normal report is
returned. -/
def execute_mobile_access_setup (g : GitOutcomes) (a : ArtifactFailures)
    (basePath now : String) : CompletionReport :=
  let _ := create_main_github_repository g a
  generate_mobile_completion_report basePath now

/-! ## The atomic write at the syscall level (for the same-filesystem /
rename analysis) -/

/-- The syscall-level steps of one atomic write. -/
inductive WriteOp where
  | openTempFile (dir : Path)
  | writeTemp
  | closeTemp
  | renameOntoTarget
  | openTargetAndCopy
  | unlinkTemp
deriving DecidableEq

/-- `tempfile.NamedTemporaryFile` is called with no `dir` argument, so the
temp file is created in the system default temp directory, whatever the
target's parent directory is. -/
def namedTemporaryFileDir (sysTempDir _targetParent : Path) : Path := sysTempDir

/-- `shutil.move(src, dst)`: a single `os.rename` when source and
destination are on the same filesystem; otherwise a copy — which opens the
destination path directly — followed by removal of the source. -/
def shutilMoveOps (sameFilesystem : Bool) : List WriteOp :=
  if sameFilesystem then [WriteOp.renameOntoTarget]
  else [WriteOp.openTargetAndCopy, WriteOp.unlinkTemp]

/-- The syscall-level trace of one successful atomic write:
`NamedTemporaryFile` in the system temp directory, full content write,
close, then `shutil.move` onto the target. -/
def atomicWriteTrace (sysTempDir targetParent : Path) (sameFilesystem : Bool) :
    List WriteOp :=
  [WriteOp.openTempFile (namedTemporaryFileDir sysTempDir targetParent),
    WriteOp.writeTemp, WriteOp.closeTemp] ++ shutilMoveOps sameFilesystem

/-- Whether a syscall-level step is the rename onto the target. -/
def isRenameStep : WriteOp → Bool
  | .renameOntoTarget => true
  | _ => false

/-- Whether a syscall-level step opens the target path directly. -/
def isOpenTargetStep : WriteOp → Bool
  | .openTargetAndCopy => true
  | _ => false

/-! ## Helper lemmas -/

theorem FS.ext_of (a b : FS) (h1 : a.dirs = b.dirs) (h2 : a.files = b.files) : a = b := by
  cases a
  cases b
  cases h1
  cases h2
  rfl

theorem opsFileAction_cons (op : FsOp) (ops : List FsOp) (p : Path) (x : Option String) :
    opsFileAction (op :: ops) p x = opsFileAction ops p (opFileAction op p x) := rfl

theorem applyOp_files (fs : FS) (op : FsOp) (p : Path) :
    (applyOp fs op).files p = opFileAction op p (fs.files p) := by
  cases op with
  | mkdirOp q => rfl
  | writeOp q c => rfl
  | touchOp q =>
    simp only [applyOp, touchFile, opFileAction]
    by_cases hpq : p = q
    · subst hpq
      simp
    · simp [hpq]
  | removeOp q => rfl

theorem applyOps_files (ops : List FsOp) : ∀ (fs : FS) (p : Path),
    (applyOps fs ops).files p = opsFileAction ops p (fs.files p) := by
  induction ops with
  | nil => intro fs p; rfl
  | cons op ops ih =>
    intro fs p
    rw [show applyOps fs (op :: ops) = applyOps (applyOp fs op) ops from rfl, ih,
      applyOp_files]
    rfl

theorem applyOp_dirs (fs : FS) (op : FsOp) (p : Path) :
    (applyOp fs op).dirs p = (fs.dirs p || opDirAction op p) := by
  cases op with
  | mkdirOp q => rfl
  | writeOp q c => simp [applyOp, writeFile, opDirAction]
  | touchOp q => simp [applyOp, touchFile, opDirAction]
  | removeOp q => simp [applyOp, removeFile, opDirAction]

theorem applyOps_dirs (ops : List FsOp) : ∀ (fs : FS) (p : Path),
    (applyOps fs ops).dirs p = (fs.dirs p || opsDirFlag ops p) := by
  induction ops with
  | nil => intro fs p; simp [applyOps, opsDirFlag]
  | cons op ops ih =>
    intro fs p
    rw [show applyOps fs (op :: ops) = applyOps (applyOp fs op) ops from rfl, ih,
      applyOp_dirs, show opsDirFlag (op :: ops) p = (opDirAction op p || opsDirFlag ops p) from rfl,
      Bool.or_assoc]

theorem opsFileAction_classes (ops : List FsOp) (p : Path) :
    (∀ x, opsFileAction ops p x = x) ∨
    (∀ x, opsFileAction ops p x = some (x.getD "")) ∨
    (∃ v, ∀ x, opsFileAction ops p x = v) := by
  induction ops with
  | nil => exact Or.inl fun x => rfl
  | cons op ops ih =>
    cases op with
    | mkdirOp q =>
      rcases ih with h | h | ⟨v, h⟩
      · exact Or.inl fun x => by rw [opsFileAction_cons]; exact h _
      · exact Or.inr (Or.inl fun x => by rw [opsFileAction_cons]; exact h _)
      · exact Or.inr (Or.inr ⟨v, fun x => by rw [opsFileAction_cons]; exact h _⟩)
    | writeOp q c =>
      by_cases hpq : p = q
      · refine Or.inr (Or.inr ⟨opsFileAction ops p (some c), fun x => ?_⟩)
        rw [opsFileAction_cons]
        congr 1
        simp [opFileAction, hpq]
      · have hop : ∀ x, opFileAction (FsOp.writeOp q c) p x = x := fun x => by
          simp [opFileAction, hpq]
        rcases ih with h | h | ⟨v, h⟩
        · exact Or.inl fun x => by rw [opsFileAction_cons, hop]; exact h _
        · exact Or.inr (Or.inl fun x => by rw [opsFileAction_cons, hop]; exact h _)
        · exact Or.inr (Or.inr ⟨v, fun x => by rw [opsFileAction_cons, hop]; exact h _⟩)
    | touchOp q =>
      by_cases hpq : p = q
      · rcases ih with h | h | ⟨v, h⟩
        · refine Or.inr (Or.inl fun x => ?_)
          rw [opsFileAction_cons, h]
          simp [opFileAction, hpq]
        · refine Or.inr (Or.inl fun x => ?_)
          rw [opsFileAction_cons, h]
          simp [opFileAction, hpq]
        · exact Or.inr (Or.inr ⟨v, fun x => by rw [opsFileAction_cons]; exact h _⟩)
      · have hop : ∀ x, opFileAction (FsOp.touchOp q) p x = x := fun x => by
          simp [opFileAction, hpq]
        rcases ih with h | h | ⟨v, h⟩
        · exact Or.inl fun x => by rw [opsFileAction_cons, hop]; exact h _
        · exact Or.inr (Or.inl fun x => by rw [opsFileAction_cons, hop]; exact h _)
        · exact Or.inr (Or.inr ⟨v, fun x => by rw [opsFileAction_cons, hop]; exact h _⟩)
    | removeOp q =>
      by_cases hpq : p = q
      · refine Or.inr (Or.inr ⟨opsFileAction ops p none, fun x => ?_⟩)
        rw [opsFileAction_cons]
        congr 1
        simp [opFileAction, hpq]
      · have hop : ∀ x, opFileAction (FsOp.removeOp q) p x = x := fun x => by
          simp [opFileAction, hpq]
        rcases ih with h | h | ⟨v, h⟩
        · exact Or.inl fun x => by rw [opsFileAction_cons, hop]; exact h _
        · exact Or.inr (Or.inl fun x => by rw [opsFileAction_cons, hop]; exact h _)
        · exact Or.inr (Or.inr ⟨v, fun x => by rw [opsFileAction_cons, hop]; exact h _⟩)

theorem opsFileAction_idem (ops : List FsOp) (p : Path) (x : Option String) :
    opsFileAction ops p (opsFileAction ops p x) = opsFileAction ops p x := by
  rcases opsFileAction_classes ops p with h | h | ⟨v, h⟩ <;> simp [h]

theorem applyOps_idem (fs : FS) (ops : List FsOp) :
    applyOps (applyOps fs ops) ops = applyOps fs ops := by
  apply FS.ext_of
  · funext p
    rw [applyOps_dirs, applyOps_dirs, Bool.or_assoc, Bool.or_self]
  · funext p
    rw [applyOps_files, applyOps_files]
    exact opsFileAction_idem ops p (fs.files p)

theorem applyOps_append (fs : FS) (l1 l2 : List FsOp) :
    applyOps fs (l1 ++ l2) = applyOps (applyOps fs l1) l2 := by
  induction l1 generalizing fs with
  | nil => rfl
  | cons op l1 ih => exact ih (applyOp fs op)

theorem atomic_write_ok_eq (fs : FS) (tmp target : Path) (c : String) :
    atomic_write fs tmp target c false = (applyOps fs (atomicWriteOps tmp target c), true) := by
  have hc : (writeFile (writeFile fs tmp "") tmp c).files tmp = some c := by
    simp [writeFile]
  show (removeFile (writeFile (writeFile (writeFile fs tmp "") tmp c) target
      (((writeFile (writeFile fs tmp "") tmp c).files tmp).getD "")) tmp, true) = _
  rw [hc]
  rfl

theorem applyOps_entryOps (fs : FS) (sysTmp repo : Path) (i : Nat) (d desc : String) :
    applyOps fs (entryOps sysTmp repo i d desc) =
      touchFile (applyOps (mkdirParents fs (dirPath repo d))
        (atomicWriteOps (tmpPath sysTmp i) (readmePath repo d) (readme_content d desc)))
        (gitkeepPath repo d) := by
  show applyOps (mkdirParents fs (dirPath repo d))
      (atomicWriteOps (tmpPath sysTmp i) (readmePath repo d) (readme_content d desc) ++
        [FsOp.touchOp (gitkeepPath repo d)]) = _
  rw [applyOps_append]
  rfl

theorem expandGo_none_eq (sysTmp repo : Path) (ents : List (String × String)) :
    ∀ (i : Nat) (fs : FS),
      expandGo sysTmp repo none i ents fs = applyOps fs (entriesOps sysTmp repo i ents) := by
  induction ents with
  | nil => intro i fs; rfl
  | cons e rest ih =>
    intro i fs
    obtain ⟨d, desc⟩ := e
    have hb : ((none : Option Nat) == some i) = false := rfl
    simp only [expandGo, hb]
    rw [atomic_write_ok_eq]
    show expandGo sysTmp repo none (i + 1) rest
        (touchFile (applyOps (mkdirParents fs (dirPath repo d))
          (atomicWriteOps (tmpPath sysTmp i) (readmePath repo d) (readme_content d desc)))
          (gitkeepPath repo d)) = _
    rw [ih, show entriesOps sysTmp repo i ((d, desc) :: rest) =
      entryOps sysTmp repo i d desc ++ entriesOps sysTmp repo (i + 1) rest from rfl,
      applyOps_append, applyOps_entryOps]

theorem expandGo_some_eq (sysTmp repo : Path) (ents : List (String × String)) :
    ∀ (i f : Nat) (fs : FS), i ≤ f →
      expandGo sysTmp repo (some f) i ents fs =
        applyOps fs (opsUpToFail sysTmp repo i f ents) := by
  induction ents with
  | nil => intro i f fs _; rfl
  | cons e rest ih =>
    intro i f fs hif
    obtain ⟨d, desc⟩ := e
    by_cases hf : i = f
    · subst hf
      have hb : ((some i : Option Nat) == some i) = true := by simp
      simp only [expandGo, hb, opsUpToFail, if_pos rfl]
      rfl
    · have hb : ((some f : Option Nat) == some i) = false := by
        rw [beq_eq_false_iff_ne]
        intro h
        exact hf ((Option.some.inj h).symm)
      simp only [expandGo, hb]
      rw [atomic_write_ok_eq]
      show expandGo sysTmp repo (some f) (i + 1) rest
          (touchFile (applyOps (mkdirParents fs (dirPath repo d))
            (atomicWriteOps (tmpPath sysTmp i) (readmePath repo d) (readme_content d desc)))
            (gitkeepPath repo d)) = _
      rw [ih (i + 1) f _ (by omega)]
      simp only [opsUpToFail, if_neg hf]
      rw [applyOps_append, applyOps_entryOps]

theorem touchedFilePaths_append (l1 l2 : List FsOp) :
    touchedFilePaths (l1 ++ l2) = touchedFilePaths l1 ++ touchedFilePaths l2 := by
  induction l1 with
  | nil => rfl
  | cons op l1 ih => cases op <;> simp [touchedFilePaths, ih]

theorem mkdirTargets_append (l1 l2 : List FsOp) :
    mkdirTargets (l1 ++ l2) = mkdirTargets l1 ++ mkdirTargets l2 := by
  induction l1 with
  | nil => rfl
  | cons op l1 ih => cases op <;> simp [mkdirTargets, ih]

theorem opsFileAction_of_not_mem (ops : List FsOp) (p : Path) :
    p ∉ touchedFilePaths ops → ∀ x, opsFileAction ops p x = x := by
  induction ops with
  | nil => intro _ x; rfl
  | cons op ops ih =>
    intro h x
    cases op with
    | mkdirOp q =>
      rw [opsFileAction_cons]
      exact ih (by simpa [touchedFilePaths] using h) x
    | writeOp q c =>
      have hq : p ≠ q := fun e => h (by simp [touchedFilePaths, e])
      have h2 : p ∉ touchedFilePaths ops := fun hm => h (by simp [touchedFilePaths, hm])
      rw [opsFileAction_cons, show opFileAction (FsOp.writeOp q c) p x = x from by
        simp [opFileAction, hq]]
      exact ih h2 x
    | touchOp q =>
      have hq : p ≠ q := fun e => h (by simp [touchedFilePaths, e])
      have h2 : p ∉ touchedFilePaths ops := fun hm => h (by simp [touchedFilePaths, hm])
      rw [opsFileAction_cons, show opFileAction (FsOp.touchOp q) p x = x from by
        simp [opFileAction, hq]]
      exact ih h2 x
    | removeOp q =>
      have hq : p ≠ q := fun e => h (by simp [touchedFilePaths, e])
      have h2 : p ∉ touchedFilePaths ops := fun hm => h (by simp [touchedFilePaths, hm])
      rw [opsFileAction_cons, show opFileAction (FsOp.removeOp q) p x = x from by
        simp [opFileAction, hq]]
      exact ih h2 x

theorem opsDirFlag_eq_false (ops : List FsOp) (p : Path) :
    (∀ q ∈ mkdirTargets ops, (!p.isEmpty && p.isPrefixOf q) = false) →
      opsDirFlag ops p = false := by
  induction ops with
  | nil => intro _; rfl
  | cons op ops ih =>
    intro h
    cases op with
    | mkdirOp q =>
      have h1 := h q (by simp [mkdirTargets])
      have h2 := ih fun r hr => h r (by simp [mkdirTargets, hr])
      simp [opsDirFlag, opDirAction, h1, h2]
    | writeOp q c =>
      simpa [opsDirFlag, opDirAction] using ih fun r hr => h r (by simpa [mkdirTargets] using hr)
    | touchOp q =>
      simpa [opsDirFlag, opDirAction] using ih fun r hr => h r (by simpa [mkdirTargets] using hr)
    | removeOp q =>
      simpa [opsDirFlag, opDirAction] using ih fun r hr => h r (by simpa [mkdirTargets] using hr)

theorem touchedFilePaths_upToFail (sysTmp repo : Path) (ents : List (String × String)) :
    ∀ (i f : Nat), i ≤ f → ∀ p ∈ touchedFilePaths (opsUpToFail sysTmp repo i f ents),
      (∃ k, i ≤ k ∧ k ≤ f ∧ p = tmpPath sysTmp k) ∨
      (∃ e ∈ ents.take (f - i), p = readmePath repo e.1 ∨ p = gitkeepPath repo e.1) := by
  induction ents with
  | nil =>
    intro i f _ p hp
    simp [opsUpToFail, touchedFilePaths] at hp
  | cons e rest ih =>
    intro i f hif p hp
    obtain ⟨d, desc⟩ := e
    by_cases hf : i = f
    · subst hf
      simp only [opsUpToFail, if_pos rfl] at hp
      simp [touchedFilePaths] at hp
      exact Or.inl ⟨i, le_refl i, le_refl i, by tauto⟩
    · have hlt : i < f := lt_of_le_of_ne hif hf
      simp only [opsUpToFail, if_neg hf] at hp
      rw [touchedFilePaths_append] at hp
      have htake : f - i = (f - (i + 1)) + 1 := by omega
      rcases List.mem_append.mp hp with hp1 | hp2
      · simp [entryOps, atomicWriteOps, touchedFilePaths] at hp1
        rcases hp1 with h | h | h | h
        · exact Or.inl ⟨i, le_refl i, le_of_lt hlt, h⟩
        · refine Or.inr ⟨(d, desc), ?_, Or.inl h⟩
          rw [htake, List.take_succ_cons]
          exact List.mem_cons_self _ _
        · exact Or.inl ⟨i, le_refl i, le_of_lt hlt, h⟩
        · refine Or.inr ⟨(d, desc), ?_, Or.inr h⟩
          rw [htake, List.take_succ_cons]
          exact List.mem_cons_self _ _
      · rcases ih (i + 1) f (by omega) p hp2 with ⟨k, hk1, hk2, hk3⟩ | ⟨e2, he2, hpe⟩
        · exact Or.inl ⟨k, by omega, hk2, hk3⟩
        · refine Or.inr ⟨e2, ?_, hpe⟩
          rw [htake, List.take_succ_cons]
          exact List.mem_cons_of_mem _ he2

theorem mkdirTargets_upToFail (sysTmp repo : Path) (ents : List (String × String)) :
    ∀ (i f : Nat), i ≤ f → ∀ p ∈ mkdirTargets (opsUpToFail sysTmp repo i f ents),
      ∃ e ∈ ents.take (f - i + 1), p = dirPath repo e.1 := by
  induction ents with
  | nil =>
    intro i f _ p hp
    simp [opsUpToFail, mkdirTargets] at hp
  | cons e rest ih =>
    intro i f hif p hp
    obtain ⟨d, desc⟩ := e
    by_cases hf : i = f
    · subst hf
      simp only [opsUpToFail, if_pos rfl] at hp
      simp [mkdirTargets] at hp
      refine ⟨(d, desc), ?_, hp⟩
      rw [show i - i + 1 = 1 from by omega]
      simp
    · have hlt : i < f := lt_of_le_of_ne hif hf
      simp only [opsUpToFail, if_neg hf] at hp
      rw [mkdirTargets_append] at hp
      have htake : f - i + 1 = (f - (i + 1) + 1) + 1 := by omega
      rcases List.mem_append.mp hp with hp1 | hp2
      · simp [entryOps, atomicWriteOps, mkdirTargets] at hp1
        refine ⟨(d, desc), ?_, hp1⟩
        rw [htake, List.take_succ_cons]
        exact List.mem_cons_self _ _
      · obtain ⟨e2, he2, hpe⟩ := ih (i + 1) f (by omega) p hp2
        refine ⟨e2, ?_, hpe⟩
        rw [htake, List.take_succ_cons]
        exact List.mem_cons_of_mem _ he2

theorem dashboard_config_json_inj (a b : String) :
    dashboard_config_json a = dashboard_config_json b ↔ a = b := by
  constructor
  · intro h
    have hd := congrArg String.data h
    simp only [dashboard_config_json, String.data_append] at hd
    have h2 := List.append_cancel_left hd
    have h3 := List.append_cancel_right h2
    cases a
    cases b
    cases h3
    rfl
  · intro h
    rw [h]

theorem create_main_trace_ok (a : ArtifactFailures) :
    create_main_github_repository ⟨true, true, true, true⟩ a =
      ([Event.mkdirMobileDir, Event.mkdirRepo, Event.gitInit, Event.subdirStructure,
        Event.mobileReadme, Event.mobileRequirements, Event.mobileSetupScript,
        Event.mobileDashboardConfig, Event.gitAdd, Event.gitCommit, Event.gitRemoteAdd],
        true) := rfl

/-! ## The claims -/

/-- C1: when any failure is raised while the content is being written to the
temp file, the atomic-write pattern unlinks the temp file, re-raises (the
write fails with an error: the returned flag is `false`), and leaves the
target path exactly as it was — its file entry and the directory map are
unchanged, so no partial content is ever observable at the target path.
The temp file is a fresh `NamedTemporaryFile` name, hence distinct from the
target. -/
theorem atomic_write_failure_preserves_target (fs : FS) (tmp target : Path) (c : String)
    (h : tmp ≠ target) :
    (atomic_write fs tmp target c true).2 = false ∧
    (atomic_write fs tmp target c true).1.files target = fs.files target ∧
    (atomic_write fs tmp target c true).1.files tmp = none ∧
    (atomic_write fs tmp target c true).1.dirs = fs.dirs := by
  refine ⟨rfl, ?_, ?_, rfl⟩
  · show (removeFile (writeFile fs tmp "") tmp).files target = fs.files target
    simp [removeFile, writeFile, Ne.symm h]
  · show (removeFile (writeFile fs tmp "") tmp).files tmp = none
    simp [removeFile]

/-- C1 witness: the failure-case contract at a concrete write. -/
theorem atomic_write_failure_preserves_target_witness :
    (atomic_write emptyFS ["tmp", "0.tmp"] ["repo", "README.md"] "content" true).2 = false ∧
    (atomic_write emptyFS ["tmp", "0.tmp"] ["repo", "README.md"] "content" true).1.files
      ["repo", "README.md"] = emptyFS.files ["repo", "README.md"] ∧
    (atomic_write emptyFS ["tmp", "0.tmp"] ["repo", "README.md"] "content" true).1.files
      ["tmp", "0.tmp"] = none ∧
    (atomic_write emptyFS ["tmp", "0.tmp"] ["repo", "README.md"] "content" true).1.dirs =
      emptyFS.dirs :=
  atomic_write_failure_preserves_target emptyFS ["tmp", "0.tmp"] ["repo", "README.md"]
    "content" (by decide)

/-- C2 counterexample: with the version-control commit step exiting nonzero,
`create_main_github_repository` returns `False`, yet the completion report
still carries `main_repository_created = true` (the claim says `false`);
`next_steps` is populated either way. -/
theorem report_commit_failure_cex :
    (create_main_github_repository ⟨true, true, false, true⟩
      ⟨false, false, false, false, false⟩).2 = false ∧
    (execute_mobile_access_setup ⟨true, true, false, true⟩
      ⟨false, false, false, false, false⟩ "/base" "2025-01-01T00:00:00").main_repository_created
      = true ∧
    (execute_mobile_access_setup ⟨true, true, false, true⟩
      ⟨false, false, false, false, false⟩ "/base" "2025-01-01T00:00:00").next_steps ≠ [] := by
  refine ⟨rfl, rfl, ?_⟩
  decide

/-- C2 amended: the completion report's Boolean flags are constants — the
report generator ignores the bootstrap outcome entirely, so every flag is
`true` at every halting stage.  In particular, when the commit step exits
nonzero the bootstrap returns `False` but the report still says
`main_repository_created = true`, with `next_steps` populated. -/
theorem completion_report_constant_flags (g g2 : GitOutcomes) (a a2 : ArtifactFailures)
    (basePath now : String) :
    execute_mobile_access_setup g a basePath now =
      execute_mobile_access_setup g2 a2 basePath now ∧
    (execute_mobile_access_setup g a basePath now).main_repository_created = true ∧
    (execute_mobile_access_setup g a basePath now).mobile_access_enabled = true ∧
    (execute_mobile_access_setup g a basePath now).subdirectory_structure = true ∧
    (execute_mobile_access_setup g a basePath now).next_steps =
      ["Execute Complete Integration Resolution", "Final System Verification",
        "Mobile Access Testing"] :=
  ⟨rfl, rfl, rfl, rfl, rfl⟩

/-- C3 counterexample: with the first entry's (`core/`) README content write
failing, the failing entry's directory exists without its README, and the
second entry (`businesses/`) — an entry after the failing one — gets neither
its directory, nor its documentation file, nor its marker file, against the
claim that the remaining entries are still created. -/
theorem expansion_abort_cex :
    (create_recommended_subdirectory_structure emptyFS ["tmp"] ["repo"] (some 0)).dirs
      ["repo", "core/"] = true ∧
    (create_recommended_subdirectory_structure emptyFS ["tmp"] ["repo"] (some 0)).files
      ["repo", "core/", "README.md"] = none ∧
    (create_recommended_subdirectory_structure emptyFS ["tmp"] ["repo"] (some 0)).dirs
      ["repo", "businesses/"] = false ∧
    (create_recommended_subdirectory_structure emptyFS ["tmp"] ["repo"] (some 0)).files
      ["repo", "businesses/", "README.md"] = none ∧
    (create_recommended_subdirectory_structure emptyFS ["tmp"] ["repo"] (some 0)).files
      ["repo", "businesses/", ".gitkeep"] = none := by
  refine ⟨?_, ?_, ?_, ?_, ?_⟩ <;> decide

/-- C3 amended: a failure writing one directory's documentation file is
logged and not propagated to the caller (the method-level handler catches
it), but it does abort expansion of the remaining entries: every entry after
the failing one is left untouched — its directory is not created and its
documentation and marker files are not written.  (`e` is the later entry;
the side conditions say the later entry's name differs from the processed
ones and the fresh temp-file names do not collide with its paths.) -/
theorem expansion_failure_aborts_rest (fs : FS) (sysTmp repo : Path) (f j : Nat)
    (e : String × String) (hj : j < subdirectories.length) (hfj : f < j)
    (he : subdirectories[j]? = some e)
    (hname : ∀ e2 ∈ subdirectories.take (f + 1), e2.1 ≠ e.1)
    (htmp : ∀ k, k ≤ f →
      tmpPath sysTmp k ≠ readmePath repo e.1 ∧ tmpPath sysTmp k ≠ gitkeepPath repo e.1) :
    (create_recommended_subdirectory_structure fs sysTmp repo (some f)).files
      (readmePath repo e.1) = fs.files (readmePath repo e.1) ∧
    (create_recommended_subdirectory_structure fs sysTmp repo (some f)).files
      (gitkeepPath repo e.1) = fs.files (gitkeepPath repo e.1) ∧
    (create_recommended_subdirectory_structure fs sysTmp repo (some f)).dirs
      (dirPath repo e.1) = fs.dirs (dirPath repo e.1) := by
  have hrw : create_recommended_subdirectory_structure fs sysTmp repo (some f) =
      applyOps fs (opsUpToFail sysTmp repo 0 f subdirectories) :=
    expandGo_some_eq sysTmp repo subdirectories 0 f fs (Nat.zero_le f)
  have hsub : subdirectories.take (f - 0) ⊆ subdirectories.take (f + 1) :=
    (List.take_prefix_take_left subdirectories (by omega)).subset
  refine ⟨?_, ?_, ?_⟩
  · rw [hrw, applyOps_files]
    refine opsFileAction_of_not_mem _ _ (fun hmem => ?_) _
    rcases touchedFilePaths_upToFail sysTmp repo subdirectories 0 f (Nat.zero_le f) _ hmem
      with ⟨k, _, hkf, hk⟩ | ⟨e2, he2, hpe⟩
    · exact (htmp k hkf).1 hk.symm
    · rcases hpe with hcase | hcase
      · have hcc : [e.1, "README.md"] = [e2.1, "README.md"] := List.append_cancel_left hcase
        simp only [List.cons.injEq, and_true] at hcc
        exact hname e2 (hsub he2) hcc.symm
      · have hcc : [e.1, "README.md"] = [e2.1, ".gitkeep"] := List.append_cancel_left hcase
        simp at hcc
  · rw [hrw, applyOps_files]
    refine opsFileAction_of_not_mem _ _ (fun hmem => ?_) _
    rcases touchedFilePaths_upToFail sysTmp repo subdirectories 0 f (Nat.zero_le f) _ hmem
      with ⟨k, _, hkf, hk⟩ | ⟨e2, he2, hpe⟩
    · exact (htmp k hkf).2 hk.symm
    · rcases hpe with hcase | hcase
      · have hcc : [e.1, ".gitkeep"] = [e2.1, "README.md"] := List.append_cancel_left hcase
        simp at hcc
      · have hcc : [e.1, ".gitkeep"] = [e2.1, ".gitkeep"] := List.append_cancel_left hcase
        simp only [List.cons.injEq, and_true] at hcc
        exact hname e2 (hsub he2) hcc.symm
  · rw [hrw, applyOps_dirs]
    suffices hflag : opsDirFlag (opsUpToFail sysTmp repo 0 f subdirectories)
        (dirPath repo e.1) = false by
      rw [hflag, Bool.or_false]
    refine opsDirFlag_eq_false _ _ (fun q hq => ?_)
    obtain ⟨e2, he2, rfl⟩ :=
      mkdirTargets_upToFail sysTmp repo subdirectories 0 f (Nat.zero_le f) q hq
    rw [Nat.sub_zero] at he2
    cases hb : (dirPath repo e.1).isPrefixOf (dirPath repo e2.1) with
    | false => rw [Bool.and_false]
    | true =>
      exfalso
      have hpre := List.isPrefixOf_iff_prefix.mp hb
      rw [dirPath, dirPath, List.prefix_append_right_inj] at hpre
      exact hname e2 he2 (List.cons_prefix_cons.mp hpre).1.symm

/-- C3 witness: with entry 0 (`core/`) failing, entry 1 (`businesses/`) is
left untouched. -/
theorem expansion_failure_aborts_rest_witness :
    (create_recommended_subdirectory_structure emptyFS ["tmp"] ["repo"] (some 0)).files
      (readmePath ["repo"] "businesses/") = emptyFS.files (readmePath ["repo"] "businesses/") ∧
    (create_recommended_subdirectory_structure emptyFS ["tmp"] ["repo"] (some 0)).files
      (gitkeepPath ["repo"] "businesses/") = emptyFS.files (gitkeepPath ["repo"] "businesses/") ∧
    (create_recommended_subdirectory_structure emptyFS ["tmp"] ["repo"] (some 0)).dirs
      (dirPath ["repo"] "businesses/") = emptyFS.dirs (dirPath ["repo"] "businesses/") :=
  expansion_failure_aborts_rest emptyFS ["tmp"] ["repo"] 0 1
    ("businesses/", "Business entity implementations and configurations")
    (by decide) (by decide) (by decide) (by decide) (by decide)

/-- C4 counterexample: `mobile_docs_content` is not an f-string, so its
`\x7bCONFIG["URLS"][...]\x7d` variable references are unresolved — and far
from failing fast, `create_mobile_requirements` writes the placeholder text
to `docs/mobile_setup.md` verbatim. -/
theorem unresolved_placeholder_written_cex :
    hasUnresolvedRef mobile_docs_content = true ∧
    (create_mobile_requirements_fs emptyFS ["repo"] ["tmp", "a.tmp"] ["tmp", "b.tmp"]
      false false).files ["repo", "docs", "mobile_setup.md"] = some mobile_docs_content := by
  constructor
  · decide
  · rfl

/-- C4 amended: rendering never fails on an unresolved variable reference.
Only the artifacts built from f-strings (the root README, the directory
READMEs, the setup instructions) have their references substituted; the
plain-string templates (the setup documentation, the setup script, the
server stub, the dashboard HTML) keep their `\x7bCONFIG[...]\x7d` references
as literal placeholder text, and the artifact is written to disk with the
placeholder in it. -/
theorem placeholder_emitted_verbatim (fs : FS) (repo tmp1 tmp2 : Path)
    (h1 : tmp1 ≠ repo ++ ["requirements.txt"])
    (h2 : tmp2 ≠ repo ++ ["docs", "mobile_setup.md"])
    (h3 : tmp2 ≠ repo ++ ["requirements.txt"]) :
    (create_mobile_requirements_fs fs repo tmp1 tmp2 false false).files
      (repo ++ ["docs", "mobile_setup.md"]) = some mobile_docs_content ∧
    (create_mobile_requirements_fs fs repo tmp1 tmp2 false false).files
      (repo ++ ["requirements.txt"]) = some requirements_content ∧
    hasUnresolvedRef mobile_docs_content = true ∧
    hasUnresolvedRef setup_script_content = true ∧
    hasUnresolvedRef requirements_content = false ∧
    hasUnresolvedRef mobile_readme_content = false := by
  have hkey : create_mobile_requirements_fs fs repo tmp1 tmp2 false false =
      applyOps
        (mkdirParents
          (applyOps fs (atomicWriteOps tmp1 (repo ++ ["requirements.txt"]) requirements_content))
          (repo ++ ["docs"]))
        (atomicWriteOps tmp2 (repo ++ ["docs", "mobile_setup.md"]) mobile_docs_content) := by
    show (atomic_write
        (mkdirParents (atomic_write fs tmp1 (repo ++ ["requirements.txt"])
          requirements_content false).1 (repo ++ ["docs"]))
        tmp2 (repo ++ ["docs", "mobile_setup.md"]) mobile_docs_content false).1 = _
    rw [atomic_write_ok_eq, atomic_write_ok_eq]
  have hdocs_ne_req : (repo ++ ["docs", "mobile_setup.md"]) ≠ (repo ++ ["requirements.txt"]) := by
    intro hcc
    have := List.append_cancel_left hcc
    simp at this
  refine ⟨?_, ?_, by decide, by decide, by decide, by decide⟩
  · rw [hkey, applyOps_files]
    simp [atomicWriteOps, opsFileAction, opFileAction, Ne.symm h2]
  · rw [hkey, applyOps_files]
    rw [show ∀ x, opsFileAction
        (atomicWriteOps tmp2 (repo ++ ["docs", "mobile_setup.md"]) mobile_docs_content)
        (repo ++ ["requirements.txt"]) x = x from fun x => by
      simp [atomicWriteOps, opsFileAction, opFileAction, Ne.symm h3, hdocs_ne_req.symm]]
    rw [show (mkdirParents (applyOps fs (atomicWriteOps tmp1 (repo ++ ["requirements.txt"])
        requirements_content)) (repo ++ ["docs"])).files (repo ++ ["requirements.txt"]) =
      (applyOps fs (atomicWriteOps tmp1 (repo ++ ["requirements.txt"])
        requirements_content)).files (repo ++ ["requirements.txt"]) from rfl]
    rw [applyOps_files]
    simp [atomicWriteOps, opsFileAction, opFileAction, Ne.symm h1]

/-- C4 witness: the amended behaviour at a concrete run. -/
theorem placeholder_emitted_verbatim_witness :
    (create_mobile_requirements_fs emptyFS ["repo"] ["tmp", "a.tmp"] ["tmp", "b.tmp"]
      false false).files (["repo"] ++ ["docs", "mobile_setup.md"]) = some mobile_docs_content ∧
    (create_mobile_requirements_fs emptyFS ["repo"] ["tmp", "a.tmp"] ["tmp", "b.tmp"]
      false false).files (["repo"] ++ ["requirements.txt"]) = some requirements_content ∧
    hasUnresolvedRef mobile_docs_content = true ∧
    hasUnresolvedRef setup_script_content = true ∧
    hasUnresolvedRef requirements_content = false ∧
    hasUnresolvedRef mobile_readme_content = false :=
  placeholder_emitted_verbatim emptyFS ["repo"] ["tmp", "a.tmp"] ["tmp", "b.tmp"]
    (by decide) (by decide) (by decide)

/-- C5 counterexample: the dashboard configuration JSON artifact embeds the
ambient `datetime.now().isoformat()` reading (not a value of the
configuration context), so two runs with the same template and the same
`CONFIG` context but different clock readings produce different bytes. -/
theorem dashboard_config_nondeterministic_cex :
    renderArtifact "2025-01-01T00:00:00" RenderedArtifact.dashboardConfigJson ≠
      renderArtifact "2025-01-01T00:00:01" RenderedArtifact.dashboardConfigJson := by
  intro h
  exact absurd ((dashboard_config_json_inj "2025-01-01T00:00:00" "2025-01-01T00:00:01").mp h)
    (by decide)

/-- C5 amended: rendering is deterministic for every embedded artifact
except the dashboard configuration JSON: those artifacts' bytes do not
depend on the clock reading, while the dashboard configuration's bytes agree
between two runs exactly when the two `datetime.now()` readings agree. -/
theorem render_deterministic_except_timestamp (now now2 : String) (a : RenderedArtifact) :
    (a ≠ RenderedArtifact.dashboardConfigJson → renderArtifact now a = renderArtifact now2 a) ∧
    (renderArtifact now RenderedArtifact.dashboardConfigJson =
        renderArtifact now2 RenderedArtifact.dashboardConfigJson ↔ now = now2) := by
  constructor
  · intro ha
    cases a with
    | rootReadme => rfl
    | requirementsTxt => rfl
    | mobileSetupDocs => rfl
    | setupScript => rfl
    | dashboardConfigJson => exact absurd rfl ha
  · exact dashboard_config_json_inj now now2

/-- C6 counterexample: the temp file is created in the system default temp
directory whatever the target's parent is, so with the system temp directory
on another filesystem than the target's parent the move is not a rename:
`shutil.move` copies, opening the target path directly, and performs no
rename onto the target — against both the same-filesystem clause and the
"no file is ever opened at the target path directly" clause. -/
theorem temp_not_same_filesystem_cex :
    namedTemporaryFileDir ["tmp"] ["home", "repo"] = ["tmp"] ∧
    namedTemporaryFileDir ["tmp"] ["home", "repo"] ≠ ["home", "repo"] ∧
    WriteOp.openTargetAndCopy ∈ atomicWriteTrace ["tmp"] ["home", "repo"] false ∧
    (atomicWriteTrace ["tmp"] ["home", "repo"] false).countP isRenameStep = 0 := by
  refine ⟨rfl, by decide, by decide, rfl⟩

/-- C6 amended: the content is first written in full to a temp file in the
system default temporary directory — chosen independently of the target's
parent, so not necessarily on the target's filesystem.  Finalization is
`shutil.move`: when temp and target are on the same filesystem it is exactly
one rename and the target path is never opened directly; when they are not,
there is no rename and the move opens the target path directly to copy. -/
theorem atomic_write_rename_semantics (sysTmp targetParent : Path) :
    namedTemporaryFileDir sysTmp targetParent = sysTmp ∧
    atomicWriteTrace sysTmp targetParent true =
      [WriteOp.openTempFile sysTmp, WriteOp.writeTemp, WriteOp.closeTemp,
        WriteOp.renameOntoTarget] ∧
    (atomicWriteTrace sysTmp targetParent true).countP isRenameStep = 1 ∧
    (atomicWriteTrace sysTmp targetParent true).countP isOpenTargetStep = 0 ∧
    (atomicWriteTrace sysTmp targetParent false).countP isRenameStep = 0 ∧
    (atomicWriteTrace sysTmp targetParent false).countP isOpenTargetStep = 1 :=
  ⟨rfl, rfl, rfl, rfl, rfl, rfl⟩

/-- C7 counterexample: in the bootstrap's own order, `git init` (a
version-control step, trace position 2) comes before the directory structure
and every artifact write (positions 3–7), so it is not true that no
version-control step is performed before all artifacts have been written. -/
theorem git_init_before_artifacts_cex :
    fullBootstrapTrace.getD 2 Event.mkdirRepo = Event.gitInit ∧
    fullBootstrapTrace.getD 3 Event.mkdirRepo = Event.subdirStructure ∧
    vcsEvent Event.gitInit = true ∧
    artifactWriteEvent Event.subdirStructure = true ∧
    ¬ (∀ i, i < fullBootstrapTrace.length → ∀ j, j < fullBootstrapTrace.length →
        vcsEvent (fullBootstrapTrace.getD i Event.mkdirRepo) = true →
        artifactWriteEvent (fullBootstrapTrace.getD j Event.mkdirRepo) = true → j < i) := by
  refine ⟨rfl, rfl, rfl, rfl, ?_⟩
  decide

/-- C7 amended: the bootstrap is linear, but version-control initialization
comes first — right after the repository directory is created and before the
directory structure and the artifacts are written; staging, commit and
remote configuration then follow every artifact write, in that order. -/
theorem bootstrap_order_amended :
    fullBootstrapTrace =
      [Event.mkdirMobileDir, Event.mkdirRepo, Event.gitInit, Event.subdirStructure,
        Event.mobileReadme, Event.mobileRequirements, Event.mobileSetupScript,
        Event.mobileDashboardConfig, Event.gitAdd, Event.gitCommit, Event.gitRemoteAdd] ∧
    (∀ i, i < fullBootstrapTrace.length → ∀ j, j < fullBootstrapTrace.length →
      artifactWriteEvent (fullBootstrapTrace.getD i Event.mkdirRepo) = true →
      stagingEvent (fullBootstrapTrace.getD j Event.mkdirRepo) = true → i < j) ∧
    (∀ i, i < fullBootstrapTrace.length →
      artifactWriteEvent (fullBootstrapTrace.getD i Event.mkdirRepo) = true → 2 < i) ∧
    fullBootstrapTrace.getD 2 Event.mkdirRepo = Event.gitInit := by
  refine ⟨rfl, ?_, ?_, rfl⟩ <;> decide

/-- C8: directory-spec expansion is idempotent — for every root and every
starting filesystem, running the (failure-free) expansion twice yields the
same tree as running it once: existing directories are a no-op, the
generated READMEs are overwritten with the same content, and the marker
files are not duplicated. -/
theorem expansion_idempotent (fs : FS) (sysTmp repo : Path) :
    create_recommended_subdirectory_structure
      (create_recommended_subdirectory_structure fs sysTmp repo none) sysTmp repo none =
    create_recommended_subdirectory_structure fs sysTmp repo none := by
  have h : ∀ g : FS, create_recommended_subdirectory_structure g sysTmp repo none =
      applyOps g (entriesOps sysTmp repo 0 subdirectories) := fun g =>
    expandGo_none_eq sysTmp repo subdirectories 0 g
  rw [h, h]
  exact applyOps_idem fs _

/-- C9: the per-artifact generation methods all catch internally and never
propagate an exception (their oracle flags change nothing the caller sees),
so the subsequent version-control steps are still attempted after any
artifact failure; `create_main_github_repository` returns `True` exactly
when all four git calls exit 0 — an internal exception yields `False`, never
a raise. -/
theorem artifact_failures_swallowed (g : GitOutcomes) (a a2 : ArtifactFailures) :
    (create_main_github_repository g a).2 =
      (g.initOk && (g.addOk && (g.commitOk && g.remoteOk))) ∧
    (create_main_github_repository g a).1 = (create_main_github_repository g a2).1 ∧
    (g.initOk = true → Event.gitAdd ∈ (create_main_github_repository g a).1) ∧
    (g.initOk = true → g.addOk = true →
      Event.gitCommit ∈ (create_main_github_repository g a).1) ∧
    (g.initOk = true → g.addOk = true → g.commitOk = true →
      Event.gitRemoteAdd ∈ (create_main_github_repository g a).1) := by
  obtain ⟨i, ad, c, r⟩ := g
  cases i <;> cases ad <;> cases c <;> cases r <;>
    refine ⟨rfl, rfl, ?_, ?_, ?_⟩ <;>
    · intros
      simp_all [create_main_github_repository, subdirStructureStep, mobileReadmeStep,
        mobileRequirementsStep, mobileSetupScriptStep, mobileDashboardConfigStep]

/-- C10: the port configuration is arithmetically consistent —
`TOTAL_PORTS = END_PORT - START_PORT + 1` (8601 − 8000 + 1 = 602) — and both
the dashboard configuration artifact's `port_range` and the completion
report's `port_allocation` carry exactly these three `CONFIG` values. -/
theorem port_configuration_consistent (now basePath ts : String) :
    CONFIG.PORTS.TOTAL_PORTS = CONFIG.PORTS.END_PORT - CONFIG.PORTS.START_PORT + 1 ∧
    CONFIG.PORTS.START_PORT = 8000 ∧
    CONFIG.PORTS.END_PORT = 8601 ∧
    CONFIG.PORTS.TOTAL_PORTS = 602 ∧
    (dashboard_config now).port_range.start = CONFIG.PORTS.START_PORT ∧
    (dashboard_config now).port_range.«end» = CONFIG.PORTS.END_PORT ∧
    (dashboard_config now).port_range.total_ports = CONFIG.PORTS.TOTAL_PORTS ∧
    (generate_mobile_completion_report basePath ts).port_allocation.start_port =
      CONFIG.PORTS.START_PORT ∧
    (generate_mobile_completion_report basePath ts).port_allocation.end_port =
      CONFIG.PORTS.END_PORT ∧
    (generate_mobile_completion_report basePath ts).port_allocation.total_ports =
      CONFIG.PORTS.TOTAL_PORTS :=
  ⟨by decide, rfl, rfl, rfl, rfl, rfl, rfl, rfl, rfl, rfl⟩

end MobileAccess
